import Mathlib

/-!
Verification development for the `go-libp2p-bootstrap` node (`src/main.go`).

The program is a single `main` function that resolves a persistent identity
key, builds a libp2p host listening on tcp and udp/quic, attaches a
connection manager, AutoNAT and a DHT, dials one fixed bootstrap peer, and
then reports the peer count every ten seconds until signalled.

The embedding below translates the control flow of `main` directly; the
behaviour of the external libp2p libraries (key serialization, the
connection manager's pruning policy, the dial timeout semantics) is not in
this repository, so those parts are modelled from the spec's contracts and
marked as such in their doc comments.
-/

namespace Bootstrap

/-! ## Identity keys (go-libp2p-core/crypto)

`crypto.GenerateKeyPair`, `crypto.MarshalPrivateKey` and
`crypto.UnmarshalPrivateKey` live in `go-libp2p-core`, outside this
repository; they are modelled from the spec. -/

/-- The key algorithms of go-libp2p-core/crypto. `main.go` selects
`crypto.Ed25519`. -/
inductive KeyType
  | RSA
  | Ed25519
  | Secp256k1
  | ECDSA
  deriving DecidableEq

/-- The wire code of each key type (the protobuf enum of go-libp2p-core). -/
def keyTypeCode : KeyType → Nat
  | .RSA => 0
  | .Ed25519 => 1
  | .Secp256k1 => 2
  | .ECDSA => 3

/-- A private key: its algorithm and its raw bytes. -/
structure PrivKey where
  keyType : KeyType
  keyData : List Nat
  deriving DecidableEq

/-- A public key: its algorithm and its raw bytes. -/
structure PubKey where
  keyType : KeyType
  keyData : List Nat
  deriving DecidableEq

/-- Modelled from the spec: the public half of a key pair is a deterministic
function of the private key (`crypto.PrivKey.GetPublic` is not in this
repository). The elliptic-curve derivation itself is out of scope, so the
public bytes are modelled as the private bytes under a fixed pure map. -/
def pubKeyOf (k : PrivKey) : PubKey :=
  ⟨k.keyType, k.keyData⟩

/-- Modelled from the spec: `crypto.MarshalPrivateKey` serializes a private
key to "a stable binary encoding" — modelled as the key-type wire code
followed by the raw key bytes. -/
def MarshalPrivateKey (k : PrivKey) : List Nat :=
  keyTypeCode k.keyType :: k.keyData

/-- Decode a key-type wire code; bytes that are no code are rejected. -/
def decodeKeyType (n : Nat) : Option KeyType :=
  if n = 0 then some .RSA
  else if n = 1 then some .Ed25519
  else if n = 2 then some .Secp256k1
  else if n = 3 then some .ECDSA
  else none

/-- Modelled from the spec: `crypto.UnmarshalPrivateKey` decodes the stable
binary encoding back into a private key, failing on bytes that do not
encode a valid key. -/
def UnmarshalPrivateKey : List Nat → Option PrivKey
  | [] => none
  | t :: rest =>
    match decodeKeyType t with
    | some kt => some ⟨kt, rest⟩
    | none => none

/-- Modelled from the spec: the node ID is "a deterministic digest of the
public key" (`peer.IDFromPublicKey` is not in this repository) — modelled
as an identity multihash: code 0, the payload length, then the serialized
public key. -/
def IDFromPublicKey (pk : PubKey) : List Nat :=
  let bytes := keyTypeCode pk.keyType :: pk.keyData
  0 :: bytes.length :: bytes

/-! ## The key file on disk -/

/-- The key-file name joined to the executable's directory
(`main.go` line 46). -/
def privateKeyFileName : String := "private.key"

/-- `os.ModePerm`, the permission argument of the `ioutil.WriteFile` call in
`main.go` line 62: all nine permission bits set. -/
def modePerm : Nat := 0o777

/-- A file mode is owner-only-equivalent when every group and other
permission bit is clear. -/
def ownerOnlyMode (m : Nat) : Bool := m % 64 == 0

/-- A file store: path to stored bytes. -/
def FS : Type := String → Option (List Nat)

/-- Write bytes at a path. -/
def fsWrite (fs : FS) (p : String) (b : List Nat) : FS :=
  fun q => if q = p then some b else fs q

/-- Read the bytes at a path. -/
def fsRead (fs : FS) (p : String) : Option (List Nat) := fs p

/-! ## Identity resolution (`main.go` lines 46-75)

`main` stats the key file; `os.IsNotExist` on the stat error selects the
generation branch, every other stat outcome falls into the load branch.
Every error check in either branch is `log.Fatalln`, which exits the
process with status 1. -/

/-- The outcome of the `os.Stat` call on the key file, as `main` observes it
through `os.IsNotExist`: the file is there, the error says it does not
exist, or the stat failed for another reason (for example permission
denied on the directory). -/
inductive StatOutcome
  | found
  | notExist
  | statError
  deriving DecidableEq

/-- The environment of the identity-resolution block: what the operating
system and the key generator would answer. `fileBytes = none` means the
`ioutil.ReadFile` call fails. -/
structure IdentityEnv where
  stat : StatOutcome
  fileBytes : Option (List Nat)
  genKey : PrivKey
  genFails : Bool
  writeFails : Bool

/-- The externally visible steps of the identity-resolution block, in
order. -/
inductive IdAction
  | statKeyFile
  | generateKeyPair
  | writeKeyFile (bytes : List Nat) (mode : Nat)
  | readKeyFile
  deriving DecidableEq

/-- The identity-resolution block of `main` (lines 46-75): the actions it
performs and either the resolved private key or the fatal exit code. -/
def resolveIdentity (env : IdentityEnv) : List IdAction × Except Nat PrivKey :=
  match env.stat with
  | .notExist =>
    if env.genFails then ([.statKeyFile, .generateKeyPair], .error 1)
    else
      let bytes := MarshalPrivateKey env.genKey
      if env.writeFails then
        ([.statKeyFile, .generateKeyPair, .writeKeyFile bytes modePerm], .error 1)
      else
        ([.statKeyFile, .generateKeyPair, .writeKeyFile bytes modePerm], .ok env.genKey)
  | _ =>
    match env.fileBytes with
    | none => ([.statKeyFile, .readKeyFile], .error 1)
    | some bytes =>
      match UnmarshalPrivateKey bytes with
      | none => ([.statKeyFile, .readKeyFile], .error 1)
      | some k => ([.statKeyFile, .readKeyFile], .ok k)

/-! ## The connection manager (`main.go` lines 94-98)

`main` configures `connmgr.NewConnManager(100, 400, time.Minute)`. The
pruning implementation lives in `go-libp2p-connmgr`, outside this
repository, so the sweep below is modelled from the spec's contract:
when the tracked count exceeds the high watermark, close connections —
only ones older than the grace period, oldest first — until the count
reaches the low watermark, and never prune below it. -/

/-- The watermark parameters of the connection manager. -/
structure ConnMgrCfg where
  lowWater : Nat
  highWater : Nat
  gracePeriodSeconds : Nat

/-- The configuration `main` passes to `connmgr.NewConnManager`
(lines 94-98): low water 100, high water 400, grace period one minute. -/
def connMgrCfg : ConnMgrCfg := ⟨100, 400, 60⟩

/-- A tracked connection: an identifier and its establishment time in
seconds. -/
structure Conn where
  id : Nat
  established : Nat
  deriving DecidableEq

/-- A track or untrack operation on the connection manager. -/
inductive CMOp
  | track (c : Conn)
  | untrack (id : Nat)
  deriving DecidableEq

/-- Apply one track/untrack operation to the tracked set. -/
def applyOp (s : List Conn) : CMOp → List Conn
  | .track c => c :: s
  | .untrack i => s.filter (fun c => c.id ≠ i)

/-- Run a sequence of track/untrack operations from an empty tracked set. -/
def runOps (ops : List CMOp) : List Conn := ops.foldl applyOp []

/-- A connection is past the grace period at time `now`. -/
def pastGrace (cfg : ConnMgrCfg) (now : Nat) (c : Conn) : Bool :=
  c.established + cfg.gracePeriodSeconds ≤ now

/-- Insert a connection into a list sorted by establishment time,
oldest first. -/
def insertOldest (c : Conn) : List Conn → List Conn
  | [] => [c]
  | d :: ds =>
    if c.established ≤ d.established then c :: d :: ds
    else d :: insertOldest c ds

/-- Sort connections by establishment time, oldest first. -/
def sortOldest : List Conn → List Conn
  | [] => []
  | c :: cs => insertOldest c (sortOldest cs)

/-- Modelled from the spec: one pruning sweep of the connection manager.
If the tracked count exceeds the high watermark, close connections past
the grace period, oldest first, until the count reaches the low watermark;
connections within the grace period are never evicted, and the count is
never pruned below the low watermark. -/
def sweep (cfg : ConnMgrCfg) (now : Nat) (s : List Conn) : List Conn :=
  if s.length ≤ cfg.highWater then s
  else
    let young := s.filter (fun c => ¬ pastGrace cfg now c)
    let old := s.filter (pastGrace cfg now)
    let toClose := min (s.length - cfg.lowWater) old.length
    young ++ (sortOldest old).drop toClose

/-! ## Listen addresses (`main.go` lines 30-31 and 82-85) -/

/-- The default of the single `port` flag (`main.go` line 30). -/
def defaultPort : Int := 6666

/-- The two listen address strings `main` derives from the port flag with
`fmt.Sprint` (lines 82-85): a tcp address and a udp/quic address on the
same port. -/
def listenAddrStrings (port : Int) : List String :=
  ["/ip4/0.0.0.0/tcp/" ++ toString port,
   "/ip4/0.0.0.0/udp/" ++ toString port ++ "/quic"]

/-- Remove an expected leading segment from a character list; `none` when
the list does not start with it. -/
def chopFront : List Char → List Char → Option (List Char)
  | [], s => some s
  | _ :: _, [] => none
  | c :: cs, d :: ds => if c = d then chopFront cs ds else none

/-- Remove an expected trailing segment from a character list; `none` when
the list does not end with it. -/
def chopBack (suffix s : List Char) : Option (List Char) :=
  (chopFront suffix.reverse s.reverse).map List.reverse

/-- The port segment of a tcp listen address. -/
def tcpListenPortSeg (s : String) : Option String :=
  (chopFront "/ip4/0.0.0.0/tcp/".data s.data).map String.mk

/-- The port segment of a udp/quic listen address. -/
def quicListenPortSeg (s : String) : Option String :=
  (chopBack "/quic".data s.data).bind
    (fun cs => (chopFront "/ip4/0.0.0.0/udp/".data cs).map String.mk)

/-! ## The bootstrap dial (`main.go` lines 127-140)

`main` parses one fixed multiaddress, wraps the shared context in
`context.WithTimeout(ctx, time.Second*16)` and calls `h.Connect` under it.
The dial itself is implemented by go-libp2p, outside this repository, so
its timing is modelled from the spec: the connect attempt is bounded by
the context deadline. -/

/-- The hardcoded bootstrap target (`main.go` line 127). -/
def bootstrapAddrString : String :=
  "/ip4/104.131.131.82/tcp/4001/p2p/QmaCpDMGvV2BGHeYERUEnRQAwe3N8SzbUtfsmvsqQLuvuJ"

/-- The dial timeout in seconds: `context.WithTimeout(ctx, time.Second*16)`
(`main.go` line 135). -/
def bootstrapTimeoutSeconds : Nat := 16

/-- How a dial target would behave: whether a dial to it can succeed, and
after how many seconds the network would answer (`none`: it never
answers). -/
structure DialTarget where
  reachable : Bool
  responseTime : Option Nat
  deriving DecidableEq

/-- Modelled from the spec: `h.Connect` under a context with a deadline.
Returns the elapsed seconds until the call returns and whether it
succeeded: the network's answer when it arrives within the deadline,
otherwise a deadline-exceeded error exactly at the timeout. -/
def hostConnect (timeout : Nat) (t : DialTarget) : Nat × Bool :=
  match t.responseTime with
  | none => (timeout, false)
  | some d => if d ≤ timeout then (d, t.reachable) else (timeout, false)

/-! ## The startup sequence of `main` (`main.go` lines 36-140)

Every startup step is followed by `if e != nil { log.Fatalln(e) }`;
`log.Fatalln` exits the process with status 1. Only when every step —
identity resolution, `libp2p.New`, the own-address computation,
`autonat.New`, and the bootstrap connect — succeeds does `main` reach the
status reporter and the signal wait. The multiaddress parse of the fixed
`bootstrapAddrString` constant always succeeds and is not an input here.
NAT port mapping and relay advertisement (`libp2p.NATPortMap`,
`libp2p.EnableAutoRelay`) act after startup and have no error check in
`main`; whether the node ends up publicly reachable is carried in the
environment only to show `main` never consults it. -/

/-- Everything outside the process that the startup sequence of `main`
observes (plus `natReachable`, which it does not). -/
structure StartupEnv where
  idEnv : IdentityEnv
  newHostFails : Bool
  addrsFails : Bool
  autonatFails : Bool
  target : DialTarget
  natReachable : Bool

/-- Where the process ends up after the startup sequence: a fatal exit
with some status, or the Running phase (status reporter plus signal
wait). -/
inductive MainPhase
  | fatalExit (code : Nat)
  | running
  deriving DecidableEq

/-- The startup control flow of `main` (lines 36-140): each failing step
hits `log.Fatalln` (exit status 1), and the Running phase is reached only
past the bootstrap connect. -/
def mainStartup (env : StartupEnv) : MainPhase :=
  match (resolveIdentity env.idEnv).2 with
  | .error c => .fatalExit c
  | .ok _ =>
    if env.newHostFails then .fatalExit 1
    else if env.addrsFails then .fatalExit 1
    else if env.autonatFails then .fatalExit 1
    else if (hostConnect bootstrapTimeoutSeconds env.target).2 then .running
    else .fatalExit 1

/-- Every startup step succeeds: the identity resolves, host construction,
address computation and AutoNAT construction do not fail, and the
bootstrap connect succeeds. -/
def startupOk (env : StartupEnv) : Bool :=
  (match (resolveIdentity env.idEnv).2 with
    | .ok _ => true
    | .error _ => false)
  && !env.newHostFails && !env.addrsFails && !env.autonatFails
  && (hostConnect bootstrapTimeoutSeconds env.target).2

/-! ## The status reporter (`main.go` lines 143-154)

A goroutine with a 10-second ticker: each tick logs the peer count, and
`ctx.Done()` ends the loop. Its behaviour is embedded as a function of the
sequence of events the `select` observes: a tick carrying the peer count
at that moment, or the context's cancellation. -/

/-- The interval of `time.NewTicker(time.Second * 10)`
(`main.go` line 144). -/
def statusTickSeconds : Nat := 10

/-- One event the reporter's `select` observes: the context is done, or
the ticker fires while the peer store holds `peerCount` peers. -/
inductive ReporterEvent
  | ctxDone
  | tick (peerCount : Nat)
  deriving DecidableEq

/-- The reporter loop, starting after `i` earlier ticks: the log lines it
emits — each the time of its tick and the peer count it reports — and
whether the loop has returned. -/
def reporterRun : Nat → List ReporterEvent → List (Nat × Nat) × Bool
  | _, [] => ([], false)
  | _, .ctxDone :: _ => ([], true)
  | i, .tick n :: rest =>
    let r := reporterRun (i + 1) rest
    ((statusTickSeconds * (i + 1), n) :: r.1, r.2)

/-- The peer counts of the ticks before the first cancellation. -/
def ticksBeforeDone (evs : List ReporterEvent) : List Nat :=
  (evs.takeWhile (fun e => match e with | .ctxDone => false | .tick _ => true)).filterMap
    (fun e => match e with | .ctxDone => none | .tick n => some n)

/-- Whether the event sequence carries the context's cancellation. -/
def ctxDoneSeen : List ReporterEvent → Bool
  | [] => false
  | .ctxDone :: _ => true
  | .tick _ :: rest => ctxDoneSeen rest

/-! ## Concrete sample environments, used to instantiate the theorems -/

/-- A sample Ed25519 private key. -/
def sampleKey : PrivKey := ⟨.Ed25519, [1, 2, 3]⟩

/-- An identity environment whose key file does not exist. -/
def genEnv : IdentityEnv := ⟨.notExist, none, sampleKey, false, false⟩

/-- An identity environment whose key file holds a serialized key. -/
def loadEnv : IdentityEnv :=
  ⟨.found, some (MarshalPrivateKey sampleKey), sampleKey, false, false⟩

/-- An identity environment whose key file holds undecodable bytes. -/
def corruptEnv : IdentityEnv := ⟨.found, some [9, 9], sampleKey, false, false⟩

/-- An identity environment where the stat call itself errors and the file
is unreadable. -/
def statErrEnv : IdentityEnv := ⟨.statError, none, sampleKey, false, false⟩

/-- A startup environment where only `autonat.New` fails. -/
def autonatFailEnv : StartupEnv :=
  ⟨loadEnv, false, false, true, ⟨true, some 1⟩, true⟩

/-- A list of 401 track operations, each connection established at
time 0. -/
def ops401 : List CMOp := (List.range 401).map (fun i => .track ⟨i, 0⟩)

end Bootstrap

/-! ## Theorems -/

namespace Bootstrap

theorem unmarshal_marshal (k : PrivKey) :
    UnmarshalPrivateKey (MarshalPrivateKey k) = some k := by
  cases k with
  | mk kt data =>
    cases kt <;>
      simp [MarshalPrivateKey, UnmarshalPrivateKey, keyTypeCode, decodeKeyType]

theorem length_insertOldest (c : Conn) (l : List Conn) :
    (insertOldest c l).length = l.length + 1 := by
  induction l with
  | nil => rfl
  | cons d ds ih =>
    by_cases h : c.established ≤ d.established <;> simp [insertOldest, h, ih]

theorem length_sortOldest (l : List Conn) :
    (sortOldest l).length = l.length := by
  induction l with
  | nil => rfl
  | cons c cs ih => simp [sortOldest, length_insertOldest, ih]

theorem chopFront_append (a b : List Char) : chopFront a (a ++ b) = some b := by
  induction a with
  | nil => rfl
  | cons c cs ih => simp [chopFront, ih]

theorem chopBack_append (suffix x : List Char) :
    chopBack suffix (x ++ suffix) = some x := by
  simp [chopBack, List.reverse_append, chopFront_append]

theorem resolveIdentity_fst (env : IdentityEnv) :
    (resolveIdentity env).1 =
      if env.stat = .notExist then
        if env.genFails then [.statKeyFile, .generateKeyPair]
        else [.statKeyFile, .generateKeyPair,
              .writeKeyFile (MarshalPrivateKey env.genKey) modePerm]
      else [.statKeyFile, .readKeyFile] := by
  cases henv : env.stat <;> simp [resolveIdentity, henv]
  case found | statError =>
    cases hf : env.fileBytes with
    | none => rfl
    | some bytes => cases hu : UnmarshalPrivateKey bytes <;> simp [hu]
  case notExist =>
    by_cases hg : env.genFails = true <;>
      by_cases hw : env.writeFails = true <;> simp [hg, hw]

theorem resolveIdentity_error_code (env : IdentityEnv) (c : Nat)
    (h : (resolveIdentity env).2 = .error c) : c = 1 := by
  cases henv : env.stat <;> simp [resolveIdentity, henv] at h
  case found | statError =>
    cases hf : env.fileBytes with
    | none => simp [hf] at h; omega
    | some bytes =>
      cases hu : UnmarshalPrivateKey bytes <;> simp [hf, hu] at h; omega
  case notExist =>
    by_cases hg : env.genFails = true <;>
      by_cases hw : env.writeFails = true <;> simp [hg, hw] at h <;> omega

/-- C2: serializing a freshly generated private key, writing it to the
key-file path, then reading it back and deserializing it yields a key whose
derived node ID equals the one of the original key: unmarshal after marshal
is the identity, and the node ID is a pure function of the public key. -/
theorem identity_persistence_roundtrip (k : PrivKey) (fs : FS) :
    fsRead (fsWrite fs privateKeyFileName (MarshalPrivateKey k)) privateKeyFileName
      = some (MarshalPrivateKey k) ∧
    UnmarshalPrivateKey (MarshalPrivateKey k) = some k ∧
    (∀ k2 : PrivKey, UnmarshalPrivateKey (MarshalPrivateKey k) = some k2 →
      IDFromPublicKey (pubKeyOf k2) = IDFromPublicKey (pubKeyOf k)) := by
  refine ⟨by simp [fsRead, fsWrite], unmarshal_marshal k, ?_⟩
  intro k2 h
  rw [unmarshal_marshal] at h
  cases h
  rfl

/-- C3: if the stat call reports the key file missing, a key pair is
generated and its serialization is written to the key-file path; if a file
is present and decodes, the decoded key is the resolved identity; if its
bytes do not decode into a valid private key, the process exits fatally. -/
theorem identity_resolution_branches :
    (∀ env : IdentityEnv, env.stat = .notExist → env.genFails = false →
      env.writeFails = false →
      (resolveIdentity env).2 = .ok env.genKey ∧
      IdAction.writeKeyFile (MarshalPrivateKey env.genKey) modePerm
        ∈ (resolveIdentity env).1) ∧
    (∀ (env : IdentityEnv) (bytes : List Nat) (k : PrivKey),
      env.stat ≠ .notExist → env.fileBytes = some bytes →
      UnmarshalPrivateKey bytes = some k → (resolveIdentity env).2 = .ok k) ∧
    (∀ (env : IdentityEnv) (bytes : List Nat),
      env.stat ≠ .notExist → env.fileBytes = some bytes →
      UnmarshalPrivateKey bytes = none → (resolveIdentity env).2 = .error 1) := by
  refine ⟨?_, ?_, ?_⟩
  · intro env hs hg hw
    simp [resolveIdentity, hs, hg, hw]
  · intro env bytes k hs hf hu
    cases henv : env.stat <;> simp [henv] at hs ⊢ <;>
      simp [resolveIdentity, henv, hf, hu]
  · intro env bytes hs hf hu
    cases henv : env.stat <;> simp [henv] at hs ⊢ <;>
      simp [resolveIdentity, henv, hf, hu]

/-- C4, counterexample: in a run where the key file is absent, the
generated key's serialization is written with mode `os.ModePerm` = 0o777,
whose group and other permission bits are set — not an
owner-only-equivalent mode. -/
theorem keyfile_mode_not_owner_only :
    IdAction.writeKeyFile (MarshalPrivateKey genEnv.genKey) modePerm
      ∈ (resolveIdentity genEnv).1 ∧
    ownerOnlyMode modePerm = false := by decide

/-- C4, amended: when the key file is absent, the serialized private key is
written to the key-file path with mode `os.ModePerm` (0o777, read/write/
execute for owner, group and others), which is not owner-only-equivalent. -/
theorem keyfile_write_mode (env : IdentityEnv) (hs : env.stat = .notExist)
    (hg : env.genFails = false) (hw : env.writeFails = false) :
    IdAction.writeKeyFile (MarshalPrivateKey env.genKey) modePerm
      ∈ (resolveIdentity env).1 ∧
    modePerm = 0o777 ∧ ownerOnlyMode modePerm = false := by
  refine ⟨?_, rfl, rfl⟩
  simp [resolveIdentity, hs, hg, hw]

theorem keyfile_write_mode_witness :
    IdAction.writeKeyFile (MarshalPrivateKey genEnv.genKey) modePerm
      ∈ (resolveIdentity genEnv).1 ∧
    modePerm = 0o777 ∧ ownerOnlyMode modePerm = false :=
  keyfile_write_mode genEnv rfl rfl rfl

/-- C10: the generation branch runs exactly when the stat check reports the
key file as not existing; for every other stat outcome — the file is there,
or the stat failed for another reason such as a permission error — the
program attempts to read the file, and an unreadable file ends in a fatal
exit. -/
theorem stat_gate_generation :
    (∀ env : IdentityEnv,
      IdAction.generateKeyPair ∈ (resolveIdentity env).1 ↔ env.stat = .notExist) ∧
    (∀ env : IdentityEnv, env.stat ≠ .notExist →
      IdAction.readKeyFile ∈ (resolveIdentity env).1) ∧
    (∀ env : IdentityEnv, env.stat = .statError → env.fileBytes = none →
      (resolveIdentity env).2 = .error 1) := by
  refine ⟨?_, ?_, ?_⟩
  · intro env
    rw [resolveIdentity_fst]
    cases henv : env.stat <;> simp [henv]
    by_cases hg : env.genFails = true <;> simp [hg]
  · intro env hs
    rw [resolveIdentity_fst]
    cases henv : env.stat <;> simp [henv] at hs ⊢
  · intro env hs hf
    simp [resolveIdentity, hs, hf]

/-- C9: for every integer value of the port flag, the configured listen
endpoints are exactly two addresses: a tcp one and a udp/quic one, both
carrying the same port segment, namely the flag's decimal rendering; the
flag's default is 6666. -/
theorem listen_endpoints (p : Int) :
    (listenAddrStrings p).length = 2 ∧
    tcpListenPortSeg ((listenAddrStrings p).getD 0 "") = some (toString p) ∧
    quicListenPortSeg ((listenAddrStrings p).getD 1 "") = some (toString p) ∧
    listenAddrStrings defaultPort =
      ["/ip4/0.0.0.0/tcp/6666", "/ip4/0.0.0.0/udp/6666/quic"] := by
  refine ⟨rfl, ?_, ?_, by decide⟩
  · show tcpListenPortSeg ("/ip4/0.0.0.0/tcp/" ++ toString p) = some (toString p)
    unfold tcpListenPortSeg
    rw [String.data_append, chopFront_append]
    rfl
  · show quicListenPortSeg ("/ip4/0.0.0.0/udp/" ++ toString p ++ "/quic")
      = some (toString p)
    have hdata : ("/ip4/0.0.0.0/udp/" ++ toString p ++ "/quic").data
        = ("/ip4/0.0.0.0/udp/".data ++ (toString p).data) ++ "/quic".data := by
      rw [String.data_append, String.data_append]
    unfold quicListenPortSeg
    rw [hdata, chopBack_append]
    show (chopFront "/ip4/0.0.0.0/udp/".data
      ("/ip4/0.0.0.0/udp/".data ++ (toString p).data)).map String.mk = some (toString p)
    rw [chopFront_append]
    rfl

/-- C5: the bootstrap dial runs under a 16-second timeout derived from the
shared context; a dial to an unreachable target returns an error no later
than the timeout and never hangs indefinitely. -/
theorem bootstrap_dial_bounded (t : DialTarget) (h : t.reachable = false) :
    (hostConnect bootstrapTimeoutSeconds t).2 = false ∧
    (hostConnect bootstrapTimeoutSeconds t).1 ≤ bootstrapTimeoutSeconds ∧
    bootstrapTimeoutSeconds = 16 := by
  refine ⟨?_, ?_, rfl⟩ <;>
    cases hr : t.responseTime <;>
      simp [hostConnect, hr, h, bootstrapTimeoutSeconds] <;> split <;> simp_all

theorem bootstrap_dial_bounded_witness :
    (hostConnect bootstrapTimeoutSeconds ⟨false, none⟩).2 = false ∧
    (hostConnect bootstrapTimeoutSeconds ⟨false, none⟩).1 ≤ bootstrapTimeoutSeconds ∧
    bootstrapTimeoutSeconds = 16 :=
  bootstrap_dial_bounded ⟨false, none⟩ rfl

/-- C6: every startup-phase failure ends in a fatal exit with status 1
(nonzero), and the Running phase is reached exactly when every startup step
— identity resolution, host construction, address computation, AutoNAT
construction and the bootstrap connect — succeeds. -/
theorem startup_errors_fatal (env : StartupEnv) :
    (mainStartup env = .running ↔ startupOk env = true) ∧
    (startupOk env = false → mainStartup env = .fatalExit 1) ∧
    (∀ c : Nat, mainStartup env = .fatalExit c → c ≠ 0) := by
  cases hres : (resolveIdentity env.idEnv).2 with
  | error c =>
    have hc : c = 1 := resolveIdentity_error_code env.idEnv c hres
    subst hc
    simp [mainStartup, startupOk, hres]
  | ok k =>
    by_cases h1 : env.newHostFails = true <;>
      by_cases h2 : env.addrsFails = true <;>
        by_cases h3 : env.autonatFails = true <;>
          by_cases h4 : (hostConnect bootstrapTimeoutSeconds env.target).2 = true <;>
            simp [mainStartup, startupOk, hres, h1, h2, h3, h4]

/-- C7, counterexample: a run where only the AutoNAT constructor fails is a
fatal exit — the NAT/reachability coordinator's startup failure is
propagated, contradicting the claim that it is never fatal. -/
theorem autonat_failure_fatal_cex :
    autonatFailEnv.autonatFails = true ∧
    mainStartup autonatFailEnv = .fatalExit 1 := by decide

/-- C7, amended: whether the node actually achieves public reachability is
never consulted by the startup sequence and cannot fail it; but an error
from constructing the AutoNAT coordinator itself (`autonat.New`) is a
fatal startup error. -/
theorem nat_reachability_policy :
    (∀ (env : StartupEnv) (b : Bool),
      mainStartup { env with natReachable := b } = mainStartup env) ∧
    (∀ env : StartupEnv, env.autonatFails = true → env.newHostFails = false →
      env.addrsFails = false → mainStartup env = .fatalExit 1) := by
  refine ⟨fun env b => rfl, ?_⟩
  intro env h3 h1 h2
  cases hres : (resolveIdentity env.idEnv).2 with
  | error c =>
    have hc : c = 1 := resolveIdentity_error_code env.idEnv c hres
    subst hc
    simp [mainStartup, hres]
  | ok k => simp [mainStartup, hres, h1, h2, h3]

theorem sweep_allOld_length (cfg : ConnMgrCfg) (now : Nat) (s : List Conn)
    (hlh : cfg.lowWater ≤ cfg.highWater)
    (hall : ∀ c ∈ s, pastGrace cfg now c = true) :
    (sweep cfg now s).length ≤ cfg.highWater ∧
    (cfg.lowWater ≤ (sweep cfg now s).length ∨ s.length < cfg.lowWater) := by
  by_cases h : s.length ≤ cfg.highWater
  · rw [sweep, if_pos h]
    exact ⟨h, (Nat.lt_or_ge s.length cfg.lowWater).imp_left id |>.symm.imp id id⟩
  · have hold : s.filter (pastGrace cfg now) = s := List.filter_eq_self.mpr hall
    have hyoung : s.filter (fun c => ¬ pastGrace cfg now c) = [] := by
      rw [List.filter_eq_nil_iff]
      intro c hc
      simp [hall c hc]
    have hlow : cfg.lowWater ≤ s.length := Nat.le_trans hlh (Nat.le_of_not_le h)
    rw [sweep, if_neg h]
    simp only [hold, hyoung, List.nil_append, List.length_drop, length_sortOldest]
    have hmin : min (s.length - cfg.lowWater) s.length = s.length - cfg.lowWater :=
      Nat.min_eq_left (Nat.sub_le _ _)
    rw [hmin]
    constructor
    · omega
    · left; omega

/-- C1: for every sequence of track/untrack operations followed by a
pruning sweep of the connection manager configured in `main` (low water
100, high water 400, grace period 60 seconds), once the grace period has
elapsed for every tracked connection, the tracked count after the sweep
never exceeds the high watermark and never drops below the low watermark
unless fewer than that many connections existed in total. -/
theorem connManager_watermark_invariant (ops : List CMOp) (now : Nat)
    (hall : ∀ c ∈ runOps ops, pastGrace connMgrCfg now c = true) :
    (sweep connMgrCfg now (runOps ops)).length ≤ connMgrCfg.highWater ∧
    (connMgrCfg.lowWater ≤ (sweep connMgrCfg now (runOps ops)).length ∨
      (runOps ops).length < connMgrCfg.lowWater) :=
  sweep_allOld_length connMgrCfg now (runOps ops) (by decide) hall

set_option maxRecDepth 4000 in
theorem connManager_watermark_invariant_witness :
    (sweep connMgrCfg 60 (runOps ops401)).length ≤ connMgrCfg.highWater ∧
    (connMgrCfg.lowWater ≤ (sweep connMgrCfg 60 (runOps ops401)).length ∨
      (runOps ops401).length < connMgrCfg.lowWater) :=
  connManager_watermark_invariant ops401 60 (by decide)

theorem reporterRun_eq (evs : List ReporterEvent) : ∀ i : Nat,
    reporterRun i evs =
      ((List.enumFrom i (ticksBeforeDone evs)).map
        (fun p => (statusTickSeconds * (p.1 + 1), p.2)),
       ctxDoneSeen evs) := by
  induction evs with
  | nil => intro i; rfl
  | cons e rest ih =>
    intro i
    cases e with
    | ctxDone => rfl
    | tick n =>
      simp [reporterRun, ticksBeforeDone, ctxDoneSeen, List.enumFrom_cons] at ih ⊢
      rw [ih (i + 1)]
      simp [ticksBeforeDone]

/-- C8: the status reporter ticks at a fixed 10-second interval; the log
line of the k-th tick reports the peer count at that tick and carries time
10·(k+1); the loop terminates exactly when the shared context's
cancellation is observed. -/
theorem status_reporter (evs : List ReporterEvent) :
    statusTickSeconds = 10 ∧
    (reporterRun 0 evs).1 =
      ((ticksBeforeDone evs).enum).map
        (fun p => (statusTickSeconds * (p.1 + 1), p.2)) ∧
    ((reporterRun 0 evs).2 = true ↔ ReporterEvent.ctxDone ∈ evs) := by
  refine ⟨rfl, ?_, ?_⟩
  · rw [reporterRun_eq evs 0]
    rfl
  · rw [reporterRun_eq evs 0]
    show ctxDoneSeen evs = true ↔ ReporterEvent.ctxDone ∈ evs
    induction evs with
    | nil => simp [ctxDoneSeen]
    | cons e rest ih => cases e <;> simp [ctxDoneSeen, ih]

theorem resolveIdentity_corrupt_fatal :
    (resolveIdentity corruptEnv).2 = .error 1 := rfl

theorem resolveIdentity_statError_fatal :
    (resolveIdentity statErrEnv).2 = .error 1 := rfl

theorem resolveIdentity_load_example :
    (resolveIdentity loadEnv).2 = .ok sampleKey := rfl

set_option maxRecDepth 4000 in
theorem sweep_concrete_401 :
    (sweep connMgrCfg 60 (runOps ops401)).length = 100 := by decide

end Bootstrap
